import Mathlib

/-!
Shallow embedding of the Visual Product Matcher backend
(`backend/server.py`) and proofs about its search, seeding and
error-handling behaviour.

Modelling conventions:
* Python floats are modelled as exact rationals (`ℚ`); every claim below
  is about control flow and comparisons, not rounding.
* MongoDB's product collection is modelled as a `List Product` in
  insertion order; `find(filter).to_list(1000)` filters in order and
  returns at most the first 1000 matching documents.
* `np.dot` on two 1-D vectors raises a `ValueError` when the lengths
  differ; this is modelled by an `Option` result (`none` = exception).
  An exception inside an endpoint body is caught by the endpoint's
  `except` block and becomes an HTTP 500, modelled as `Except.error`.
* External effects (HTTP image fetch, reading the uploaded file) are
  modelled by oracle functions passed as parameters, and each endpoint
  additionally returns the trace of the effects it performed, so that
  "fails before any image fetch" is a statement about that trace.
-/

namespace VPM

/-- `Product` model, server.py lines 74–83.  `embedding` defaults to `[]`
and is the record's fingerprint; `created_at` is an abstract timestamp. -/
structure Product where
  id : String
  name : String
  category : String
  image_url : String
  price : Option ℚ
  description : Option String
  embedding : List ℚ
  created_at : ℕ
deriving DecidableEq, Repr

/-- `ProductCreate` request model, server.py lines 85–90. -/
structure ProductCreate where
  name : String
  category : String
  image_url : String
  price : Option ℚ
  description : Option String
deriving DecidableEq, Repr

/-- `SimilarProduct` response model, server.py lines 92–99. -/
structure SimilarProduct where
  id : String
  name : String
  category : String
  image_url : String
  price : Option ℚ
  description : Option String
  similarity_score : ℚ
deriving DecidableEq, Repr

/-- `SearchRequest` model with its field defaults, server.py lines 101–104
(note: this model is not used by the two search endpoints). -/
structure SearchRequest where
  limit : ℤ := 10
  min_similarity : ℚ := 1/2
  category : Option String := none
deriving DecidableEq, Repr

/-- Dot product of two equal-length vectors: `np.dot` on aligned 1-D inputs. -/
def dotQ (emb1 emb2 : List ℚ) : ℚ :=
  (List.zipWith (fun a b => a * b) emb1 emb2).sum

/-- `calculate_cosine_similarity`, server.py lines 125–127.
`np.dot` raises `ValueError` when the two 1-D vectors have different
lengths; that exception is modelled as `none`. -/
def calculate_cosine_similarity (emb1 emb2 : List ℚ) : Option ℚ :=
  if emb1.length = emb2.length then some (dotQ emb1 emb2) else none

/-- `filter_query = \x7b\x7d if not category else \x7b"category": category\x7d`,
server.py lines 192 and 235.  Python truthiness: both `None` and the empty
string are falsy, so both give the unfiltered query. -/
def filter_query (category : Option String) : Option String :=
  match category with
  | none => none
  | some c => if c = "" then none else some c

/-- `db.products.find(filter_query, ...).to_list(1000)`, server.py
lines 193 and 236: the matching records in store order, capped at the
first 1000. -/
def findProducts (store : List Product) (category : Option String) : List Product :=
  (match filter_query category with
   | none => store
   | some c => store.filter (fun p => p.category = c)).take 1000

/-- One result dict of the scoring loop (server.py lines 204–212):
the candidate's metadata plus its `similarity_score`. -/
def mkSimilar (p : Product) (s : ℚ) : SimilarProduct :=
  ⟨p.id, p.name, p.category, p.image_url, p.price, p.description, s⟩

/-- The scoring loop, server.py lines 196–212: for each candidate whose
`embedding` is truthy (non-empty), compute the similarity and keep the
candidate when `similarity >= min_similarity`.  A `ValueError` raised by
`np.dot` (dimension mismatch) escapes the loop and aborts the request
(`Except.error`). -/
def scoreProducts (query_embedding : List ℚ) (min_similarity : ℚ) :
    List Product → Except Unit (List SimilarProduct)
  | [] => .ok []
  | p :: ps =>
    if p.embedding ≠ [] then
      match calculate_cosine_similarity query_embedding p.embedding with
      | none => .error ()
      | some s =>
        if min_similarity ≤ s then
          match scoreProducts query_embedding min_similarity ps with
          | .error e => .error e
          | .ok rest => .ok (mkSimilar p s :: rest)
        else scoreProducts query_embedding min_similarity ps
    else scoreProducts query_embedding min_similarity ps

/-- `results.sort(key=lambda x: x['similarity_score'], reverse=True)`,
server.py lines 215 and 258.  Python's sort is stable and `reverse=True`
reverses the comparison, not the list, so equal keys keep input order;
`List.mergeSort` with the reversed comparison has exactly this behaviour. -/
def sortByScoreDesc (results : List SimilarProduct) : List SimilarProduct :=
  List.mergeSort results (fun a b => decide (b.similarity_score ≤ a.similarity_score))

/-- `results[:limit]`, server.py lines 216 and 259: Python list slicing,
including the negative-bound case. -/
def pySlice (limit : ℤ) (l : List SimilarProduct) : List SimilarProduct :=
  if 0 ≤ limit then l.take limit.toNat
  else l.take (l.length - (-limit).toNat)

/-- The shared search body of `search_by_upload` (server.py lines 192–216)
and `search_by_url` (lines 235–259) after the query embedding has been
computed: fetch candidates, score, sort descending, truncate. -/
def rankProducts (query_embedding : List ℚ) (store : List Product)
    (limit : ℤ) (min_similarity : ℚ) (category : Option String) :
    Except Unit (List SimilarProduct) :=
  match scoreProducts query_embedding min_similarity (findProducts store category) with
  | .error e => .error e
  | .ok results => .ok (pySlice limit (sortByScoreDesc results))

/-- The in-order survivors of the scoring loop: candidates with a
non-empty embedding whose similarity reaches the threshold, each paired
with its score.  `scoreProducts` returns exactly this list when no
dimension mismatch occurs. -/
def survivors (query_embedding : List ℚ) (min_similarity : ℚ)
    (cands : List Product) : List SimilarProduct :=
  (cands.filter
    (fun p => p.embedding ≠ [] ∧ min_similarity ≤ dotQ query_embedding p.embedding)).map
    (fun p => mkSimilar p (dotQ query_embedding p.embedding))

/-- A candidate is well-formed for a query when its fingerprint, if
present, has the query's dimension (so `np.dot` does not raise). -/
def WFFor (query_embedding : List ℚ) (p : Product) : Prop :=
  p.embedding ≠ [] → p.embedding.length = query_embedding.length

instance (q : List ℚ) (p : Product) : Decidable (WFFor q p) := by
  unfold WFFor; infer_instance

/-- HTTP-level failures raised by the endpoints: `HTTPException(503)` when
the CLIP embedder is unavailable, `HTTPException(500)` from the generic
`except` blocks. -/
inductive HErr where
  | encodingUnavailable
  | internalError
deriving DecidableEq, Repr

/-- External effects an endpoint can perform before returning: fetching
an image over HTTP (`load_image_from_url` / `requests.get`), reading the
uploaded file's bytes, or writing a document to the store. -/
inductive Eff where
  | fetchUrl (url : String)
  | readUpload
  | dbWrite
deriving DecidableEq, Repr

/-- `search_by_upload`, server.py lines 174–219.  `Img` is the abstract
type of decoded images; `embedder` is the global CLIP embedder, `none`
when model initialization failed (lines 64–71); `load_image_from_bytes`
is the decoding oracle (`none` = exception, caught as a 500); the two
`Option` parameters model the form fields with their `Form(10)` /
`Form(0.3)` defaults. -/
def search_by_upload (Img : Type) (embedder : Option (Img → List ℚ))
    (load_image_from_bytes : List ℕ → Option Img) (file : List ℕ)
    (limit : Option ℤ) (min_similarity : Option ℚ) (category : Option String)
    (store : List Product) : Except HErr (List SimilarProduct) × List Eff :=
  let limit := limit.getD 10
  let min_similarity := min_similarity.getD (3/10)
  match embedder with
  | none => (.error .encodingUnavailable, [])
  | some emb =>
    match load_image_from_bytes file with
    | none => (.error .internalError, [.readUpload])
    | some image =>
      match rankProducts (emb image) store limit min_similarity category with
      | .error _ => (.error .internalError, [.readUpload])
      | .ok results => (.ok results, [.readUpload])

/-- `search_by_url`, server.py lines 221–262: identical to
`search_by_upload` except that the image is fetched from a URL. -/
def search_by_url (Img : Type) (embedder : Option (Img → List ℚ))
    (load_image_from_url : String → Option Img) (url : String)
    (limit : Option ℤ) (min_similarity : Option ℚ) (category : Option String)
    (store : List Product) : Except HErr (List SimilarProduct) × List Eff :=
  let limit := limit.getD 10
  let min_similarity := min_similarity.getD (3/10)
  match embedder with
  | none => (.error .encodingUnavailable, [])
  | some emb =>
    match load_image_from_url url with
    | none => (.error .internalError, [.fetchUrl url])
    | some image =>
      match rankProducts (emb image) store limit min_similarity category with
      | .error _ => (.error .internalError, [.fetchUrl url])
      | .ok results => (.ok results, [.fetchUrl url])

/-- `create_product`, server.py lines 134–157: 503 when the embedder is
missing; otherwise fetch the image, embed it, build a `Product` with a
fresh id and the current timestamp, and insert it into the store.
Fetch/decode failure is caught by the endpoint's `except` block (500). -/
def create_product (Img : Type) (embedder : Option (Img → List ℚ))
    (load_image_from_url : String → Option Img) (fresh_id : String) (now : ℕ)
    (store : List Product) (product : ProductCreate) :
    (Except HErr Product × List Product) × List Eff :=
  match embedder with
  | none => ((.error .encodingUnavailable, store), [])
  | some emb =>
    match load_image_from_url product.image_url with
    | none => ((.error .internalError, store), [.fetchUrl product.image_url])
    | some image =>
      let product_obj : Product :=
        ⟨fresh_id, product.name, product.category, product.image_url,
         product.price, product.description, emb image, now⟩
      ((.ok product_obj, store ++ [product_obj]), [.fetchUrl product.image_url, .dbWrite])

/-- One sample entry of the `sample_products` list, server.py
lines 276–355. -/
structure SampleSpec where
  name : String
  category : String
  price : ℚ
  image_url : String
deriving DecidableEq, Repr

/-- The fixed `sample_products` list, server.py lines 276–355. -/
def sample_products : List SampleSpec := [
  ⟨"MacBook Pro 16", "Electronics", 2499, "https://images.unsplash.com/photo-1517336714731-489689fd1ca8?w=500"⟩,
  ⟨"Dell XPS 15", "Electronics", 1899, "https://images.unsplash.com/photo-1593642632823-8f785ba67e45?w=500"⟩,
  ⟨"HP Spectre x360", "Electronics", 1599, "https://images.unsplash.com/photo-1496181133206-80ce9b88a853?w=500"⟩,
  ⟨"Lenovo ThinkPad", "Electronics", 1299, "https://images.unsplash.com/photo-1588872657578-7efd1f1555ed?w=500"⟩,
  ⟨"ASUS ROG Gaming Laptop", "Electronics", 1799, "https://images.unsplash.com/photo-1603302576837-37561b2e2302?w=500"⟩,
  ⟨"iPhone 15 Pro", "Electronics", 999, "https://images.unsplash.com/photo-1592286927505-0485968717fc?w=500"⟩,
  ⟨"Samsung Galaxy S24", "Electronics", 899, "https://images.unsplash.com/photo-1610945415295-d9bbf067e59c?w=500"⟩,
  ⟨"Google Pixel 8", "Electronics", 799, "https://images.unsplash.com/photo-1598327105666-5b89351aff97?w=500"⟩,
  ⟨"OnePlus 12", "Electronics", 699, "https://images.unsplash.com/photo-1511707171634-5f897ff02aa9?w=500"⟩,
  ⟨"Nike Air Max", "Fashion", 150, "https://images.unsplash.com/photo-1542291026-7eec264c27ff?w=500"⟩,
  ⟨"Adidas Ultraboost", "Fashion", 180, "https://images.unsplash.com/photo-1608231387042-66d1773070a5?w=500"⟩,
  ⟨"Converse Chuck Taylor", "Fashion", 65, "https://images.unsplash.com/photo-1607522370275-f14206abe5d3?w=500"⟩,
  ⟨"Vans Old Skool", "Fashion", 70, "https://images.unsplash.com/photo-1525966222134-fcfa99b8ae77?w=500"⟩,
  ⟨"Puma RS-X", "Fashion", 110, "https://images.unsplash.com/photo-1606107557195-0e29a4b5b4aa?w=500"⟩,
  ⟨"Leather Jacket", "Fashion", 299, "https://images.unsplash.com/photo-1551028719-00167b16eac5?w=500"⟩,
  ⟨"Denim Jacket", "Fashion", 89, "https://images.unsplash.com/photo-1576995853123-5a10305d93c0?w=500"⟩,
  ⟨"Hoodie Sweatshirt", "Fashion", 59, "https://images.unsplash.com/photo-1556821840-3a63f95609a7?w=500"⟩,
  ⟨"T-Shirt Pack", "Fashion", 29, "https://images.unsplash.com/photo-1521572163474-6864f9cf17ab?w=500"⟩,
  ⟨"Office Chair Ergonomic", "Furniture", 349, "https://images.unsplash.com/photo-1580480055273-228ff5388ef8?w=500"⟩,
  ⟨"Gaming Chair", "Furniture", 299, "https://images.unsplash.com/photo-1598550476439-6847785fcea6?w=500"⟩,
  ⟨"Wooden Dining Chair", "Furniture", 129, "https://images.unsplash.com/photo-1503602642458-232111445657?w=500"⟩,
  ⟨"Recliner Armchair", "Furniture", 599, "https://images.unsplash.com/photo-1567538096630-e0c55bd6374c?w=500"⟩,
  ⟨"Coffee Table Modern", "Furniture", 199, "https://images.unsplash.com/photo-1618219740975-d40978bb7378?w=500"⟩,
  ⟨"Dining Table Wood", "Furniture", 799, "https://images.unsplash.com/photo-1617806118233-18e1de247200?w=500"⟩,
  ⟨"Standing Desk", "Furniture", 449, "https://images.unsplash.com/photo-1595515106969-1ce29566ff1c?w=500"⟩,
  ⟨"Table Lamp Modern", "Home", 79, "https://images.unsplash.com/photo-1507473885765-e6ed057f782c?w=500"⟩,
  ⟨"Wall Mirror Large", "Home", 149, "https://images.unsplash.com/photo-1618221195710-dd6b41faaea6?w=500"⟩,
  ⟨"Throw Pillows Set", "Home", 39, "https://images.unsplash.com/photo-1584100936595-c0654b55a2e2?w=500"⟩,
  ⟨"Area Rug", "Home", 199, "https://images.unsplash.com/photo-1600166898405-da9535204843?w=500"⟩,
  ⟨"Wall Art Canvas", "Home", 89, "https://images.unsplash.com/photo-1513519245088-0e12902e35ca?w=500"⟩,
  ⟨"Yoga Mat Premium", "Sports", 49, "https://images.unsplash.com/photo-1601925260368-ae2f83cf8b7f?w=500"⟩,
  ⟨"Dumbbell Set", "Sports", 199, "https://images.unsplash.com/photo-1517836357463-d25dfeac3438?w=500"⟩,
  ⟨"Tennis Racket", "Sports", 159, "https://images.unsplash.com/photo-1617083278810-f9de9086e4f9?w=500"⟩,
  ⟨"Basketball Wilson", "Sports", 29, "https://images.unsplash.com/photo-1546519638-68e109498ffc?w=500"⟩,
  ⟨"Running Shoes Pro", "Sports", 139, "https://images.unsplash.com/photo-1542291026-7eec264c27ff?w=500"⟩,
  ⟨"Programming Books Set", "Books", 79, "https://images.unsplash.com/photo-1589998059171-988d887df646?w=500"⟩,
  ⟨"Fiction Novel Collection", "Books", 49, "https://images.unsplash.com/photo-1512820790803-83ca734da794?w=500"⟩,
  ⟨"Coffee Table Book", "Books", 39, "https://images.unsplash.com/photo-1497633762265-9d179a990aa6?w=500"⟩,
  ⟨"Blender High Speed", "Kitchen", 99, "https://images.unsplash.com/photo-1570222094114-d054a817e56b?w=500"⟩,
  ⟨"Coffee Maker", "Kitchen", 129, "https://images.unsplash.com/photo-1517668808822-9ebb02f2a0e6?w=500"⟩,
  ⟨"Knife Set Professional", "Kitchen", 149, "https://images.unsplash.com/photo-1593618998160-e34014e67546?w=500"⟩,
  ⟨"Cookware Set", "Kitchen", 199, "https://images.unsplash.com/photo-1556911220-bff31c812dba?w=500"⟩,
  ⟨"Smartwatch", "Accessories", 299, "https://images.unsplash.com/photo-1523275335684-37898b6baf30?w=500"⟩,
  ⟨"Sunglasses Ray-Ban", "Accessories", 159, "https://images.unsplash.com/photo-1511499767150-a48a237f0083?w=500"⟩,
  ⟨"Backpack Leather", "Accessories", 189, "https://images.unsplash.com/photo-1553062407-98eeb64c6a62?w=500"⟩,
  ⟨"Wallet Bifold", "Accessories", 49, "https://images.unsplash.com/photo-1627123424574-724758594e93?w=500"⟩,
  ⟨"Belt Designer", "Accessories", 79, "https://images.unsplash.com/photo-1624222247344-550fb60583aa?w=500"⟩,
  ⟨"Wireless Headphones", "Electronics", 249, "https://images.unsplash.com/photo-1505740420928-5e560c06d30e?w=500"⟩,
  ⟨"Bluetooth Speaker", "Electronics", 99, "https://images.unsplash.com/photo-1608043152269-423dbba4e7e1?w=500"⟩,
  ⟨"Earbuds Wireless", "Electronics", 129, "https://images.unsplash.com/photo-1590658268037-6bf12165a8df?w=500"⟩,
  ⟨"Skincare Set", "Beauty", 89, "https://images.unsplash.com/photo-1556228720-195a672e8a03?w=500"⟩,
  ⟨"Makeup Palette", "Beauty", 59, "https://images.unsplash.com/photo-1596704017254-9b121068ec31?w=500"⟩,
  ⟨"Hair Dryer Professional", "Beauty", 149, "https://images.unsplash.com/photo-1522338242992-e1a54906a8da?w=500"⟩]

/-- Response of `seed_products`: either the early "Database already
contains N products" message (no insertion) or the final
inserted/failed counts. -/
inductive SeedResult where
  | alreadySeeded (count : ℕ)
  | seeded (inserted failed : ℕ)
deriving DecidableEq, Repr

/-- The seeding loop, server.py lines 357–383: for each sample spec,
fetch and embed its image and insert the product; any per-item exception
(fetch/decode failure, modelled by the `load` oracle returning `none`)
is logged, increments `failed`, and the loop continues.  Also records
the effect trace. -/
def seedLoop (Img : Type) (emb : Img → List ℚ) (load : String → Option Img)
    (fresh_id : ℕ → String) (now : ℕ) :
    List SampleSpec → List Product → ℕ → ℕ → ℕ → List Eff →
    List Product × ℕ × ℕ × List Eff
  | [], store, _, inserted, failed, effs => (store, inserted, failed, effs)
  | spec :: rest, store, idx, inserted, failed, effs =>
    match load spec.image_url with
    | none =>
      seedLoop Img emb load fresh_id now rest store (idx + 1) inserted (failed + 1)
        (effs ++ [.fetchUrl spec.image_url])
    | some image =>
      let p : Product :=
        ⟨fresh_id idx, spec.name, spec.category, spec.image_url,
         some spec.price, none, emb image, now⟩
      seedLoop Img emb load fresh_id now rest (store ++ [p]) (idx + 1) (inserted + 1) failed
        (effs ++ [.fetchUrl spec.image_url, .dbWrite])

/-- `seed_products`, server.py lines 264–388: 503 when the embedder is
missing; a no-op returning "already contains" when the store is
non-empty; otherwise runs the seeding loop over `sample_products`. -/
def seed_products (Img : Type) (embedder : Option (Img → List ℚ))
    (load : String → Option Img) (fresh_id : ℕ → String) (now : ℕ)
    (store : List Product) : (Except HErr SeedResult × List Product) × List Eff :=
  match embedder with
  | none => ((.error .encodingUnavailable, store), [])
  | some emb =>
    if store.length > 0 then ((.ok (.alreadySeeded store.length), store), [])
    else
      let r := seedLoop Img emb load fresh_id now sample_products store 0 0 0 []
      ((.ok (.seeded r.2.1 r.2.2.1), r.1), r.2.2.2)

/-! ### Lemmas about the ranking core -/

/-- When every candidate is well-formed for the query, the scoring loop
raises no exception and returns exactly the in-order survivors. -/
theorem scoreProducts_eq_survivors (q : List ℚ) (t : ℚ) (cands : List Product)
    (h : ∀ p ∈ cands, WFFor q p) :
    scoreProducts q t cands = .ok (survivors q t cands) := by
  induction cands with
  | nil => simp [scoreProducts, survivors]
  | cons p ps ih =>
    have hp : WFFor q p := h p (List.mem_cons_self p ps)
    have hps := ih (fun x hx => h x (List.mem_cons_of_mem p hx))
    by_cases hemb : p.embedding = []
    · simp [scoreProducts, survivors, hemb, List.filter_cons] at *
      simpa [survivors] using hps
    · have hlen : q.length = p.embedding.length := (hp hemb).symm
      by_cases hs : t ≤ dotQ q p.embedding
      · simp [scoreProducts, survivors, hemb, calculate_cosine_similarity, hlen, hs,
          List.filter_cons, hps]
      · simp [scoreProducts, survivors, hemb, calculate_cosine_similarity, hlen, hs,
          List.filter_cons]
        simpa [survivors] using hps

/-- Introduction rule for `survivors` membership. -/
theorem mem_survivors_of (q : List ℚ) (t : ℚ) (cands : List Product) (p : Product)
    (hmem : p ∈ cands) (hemb : p.embedding ≠ []) (hs : t ≤ dotQ q p.embedding) :
    mkSimilar p (dotQ q p.embedding) ∈ survivors q t cands := by
  unfold survivors
  exact List.mem_map_of_mem _ (List.mem_filter.mpr ⟨hmem, by simp [hemb, hs]⟩)

/-- Elimination rule for `survivors` membership. -/
theorem of_mem_survivors (q : List ℚ) (t : ℚ) (cands : List Product)
    (r : SimilarProduct) (h : r ∈ survivors q t cands) :
    ∃ p ∈ cands, p.embedding ≠ [] ∧ t ≤ dotQ q p.embedding ∧
      r = mkSimilar p (dotQ q p.embedding) := by
  unfold survivors at h
  obtain ⟨p, hp, rfl⟩ := List.mem_map.mp h
  have hf := List.mem_filter.mp hp
  have hcond := hf.2
  simp only [decide_eq_true_eq] at hcond
  exact ⟨p, hf.1, hcond.1, hcond.2, rfl⟩

/-- `pySlice` always returns an in-order fragment of its input. -/
theorem pySlice_sublist (k : ℤ) (l : List SimilarProduct) :
    List.Sublist (pySlice k l) l := by
  unfold pySlice
  split <;> exact l.take_sublist _

/-- For a non-negative bound, `pySlice` is plain `take`. -/
theorem pySlice_nonneg (k : ℤ) (hk : 0 ≤ k) (l : List SimilarProduct) :
    pySlice k l = l.take k.toNat := by
  unfold pySlice
  simp [hk]

/-- The descending score comparison is transitive. -/
theorem scoreDesc_trans (a b c : SimilarProduct)
    (h1 : decide (b.similarity_score ≤ a.similarity_score) = true)
    (h2 : decide (c.similarity_score ≤ b.similarity_score) = true) :
    decide (c.similarity_score ≤ a.similarity_score) = true := by
  simp only [decide_eq_true_eq] at *
  exact le_trans h2 h1

/-- The descending score comparison is total. -/
theorem scoreDesc_total (a b : SimilarProduct) :
    (decide (b.similarity_score ≤ a.similarity_score) ||
      decide (a.similarity_score ≤ b.similarity_score)) = true := by
  simp only [Bool.or_eq_true, decide_eq_true_eq]
  exact le_total _ _

/-- The sorted list is a permutation of its input. -/
theorem sortByScoreDesc_perm (l : List SimilarProduct) :
    List.Perm (sortByScoreDesc l) l :=
  List.mergeSort_perm l _

/-- The sorted list has non-increasing similarity scores. -/
theorem sortByScoreDesc_pairwise (l : List SimilarProduct) :
    (sortByScoreDesc l).Pairwise
      (fun a b => b.similarity_score ≤ a.similarity_score) := by
  have h := @List.sorted_mergeSort SimilarProduct
    (fun a b : SimilarProduct => decide (b.similarity_score ≤ a.similarity_score))
    scoreDesc_trans scoreDesc_total l
  exact h.imp (fun hab => by simpa using hab)

/-- Stability of the sort: for each score value, the entries carrying that
score appear in the sorted output in exactly their input order. -/
theorem sortByScoreDesc_filter_eq (l : List SimilarProduct) (c : ℚ) :
    (sortByScoreDesc l).filter (fun r => r.similarity_score = c) =
      l.filter (fun r => r.similarity_score = c) := by
  have hmemc : ∀ r ∈ l.filter (fun r => decide (r.similarity_score = c)),
      r.similarity_score = c := by
    intro r hr
    simpa using (List.mem_filter.mp hr).2
  have hpw : (l.filter (fun r => decide (r.similarity_score = c))).Pairwise
      (fun a b => decide (b.similarity_score ≤ a.similarity_score) = true) := by
    apply List.pairwise_of_forall_mem_list
    intro a ha b hb
    simp [hmemc a ha, hmemc b hb]
  have hsub : List.Sublist (l.filter (fun r => decide (r.similarity_score = c)))
      (sortByScoreDesc l) :=
    List.sublist_mergeSort scoreDesc_trans scoreDesc_total hpw (List.filter_sublist l)
  have hsub2 : List.Sublist (l.filter (fun r => decide (r.similarity_score = c)))
      ((sortByScoreDesc l).filter (fun r => decide (r.similarity_score = c))) := by
    have h2 := hsub.filter (fun r => decide (r.similarity_score = c))
    rwa [List.filter_eq_self.mpr (fun a ha => by simp [hmemc a ha])] at h2
  have hlen : ((sortByScoreDesc l).filter
        (fun r => decide (r.similarity_score = c))).length =
      (l.filter (fun r => decide (r.similarity_score = c))).length :=
    ((sortByScoreDesc_perm l).filter _).length_eq
  exact (hsub2.eq_of_length hlen.symm).symm

/-- Under well-formed candidates the whole ranking pipeline succeeds and
returns the truncated sorted survivors. -/
theorem rankProducts_eq (query_embedding : List ℚ) (store : List Product)
    (limit : ℤ) (min_similarity : ℚ) (category : Option String)
    (wf : ∀ p ∈ findProducts store category, WFFor query_embedding p) :
    rankProducts query_embedding store limit min_similarity category =
      .ok (pySlice limit (sortByScoreDesc
        (survivors query_embedding min_similarity (findProducts store category)))) := by
  unfold rankProducts
  rw [scoreProducts_eq_survivors _ _ _ wf]

/-! ### Claim theorems -/

/-- C1: a candidate contributes an entry of the scoring loop's result list
exactly when it has a non-empty fingerprint and its dot-product similarity
is at least the threshold; a similarity exactly equal to the threshold is
kept; and every entry of the final response originates from a candidate
with a non-empty fingerprint meeting the threshold, so a candidate with no
fingerprint never appears in any result for any threshold/limit pair. -/
theorem C1_threshold_inclusion (query_embedding : List ℚ) (store : List Product)
    (limit : ℤ) (min_similarity : ℚ) (category : Option String)
    (wf : ∀ p ∈ findProducts store category, WFFor query_embedding p) :
    scoreProducts query_embedding min_similarity (findProducts store category) =
      .ok (survivors query_embedding min_similarity (findProducts store category)) ∧
    (∀ p ∈ findProducts store category, p.embedding ≠ [] →
       dotQ query_embedding p.embedding = min_similarity →
       mkSimilar p min_similarity ∈
         survivors query_embedding min_similarity (findProducts store category)) ∧
    (∀ res, rankProducts query_embedding store limit min_similarity category = .ok res →
       ∀ r ∈ res, ∃ p ∈ findProducts store category,
         p.embedding ≠ [] ∧ min_similarity ≤ dotQ query_embedding p.embedding ∧
         r = mkSimilar p (dotQ query_embedding p.embedding)) := by
  refine ⟨scoreProducts_eq_survivors _ _ _ wf, ?_, ?_⟩
  · intro p hp hemb hdot
    have h := mem_survivors_of query_embedding min_similarity _ p hp hemb (le_of_eq hdot.symm)
    rwa [hdot] at h
  · intro res hres r hr
    rw [rankProducts_eq query_embedding store limit min_similarity category wf] at hres
    obtain rfl : pySlice limit (sortByScoreDesc
        (survivors query_embedding min_similarity (findProducts store category))) = res :=
      by exact Except.ok.inj hres
    have h1 : r ∈ sortByScoreDesc
        (survivors query_embedding min_similarity (findProducts store category)) :=
      (pySlice_sublist _ _).subset hr
    have h2 : r ∈ survivors query_embedding min_similarity (findProducts store category) :=
      (sortByScoreDesc_perm _).subset h1
    exact of_mem_survivors _ _ _ _ h2

/-- A two-record store (one record with a fingerprint, one without) used
to instantiate the search theorems at a concrete input. -/
def wStore : List Product :=
  [⟨"id1", "P1", "Electronics", "u1", none, none, [1], 0⟩,
   ⟨"id2", "P2", "Fashion", "u2", none, none, [], 0⟩]

/-- Witness for C1 at a concrete query, store, threshold and limit. -/
theorem C1_witness :
    (∀ p ∈ findProducts wStore none, WFFor [1] p) ∧
    (scoreProducts [1] 0 (findProducts wStore none) =
      .ok (survivors [1] 0 (findProducts wStore none)) ∧
    (∀ p ∈ findProducts wStore none, p.embedding ≠ [] →
       dotQ [1] p.embedding = 0 →
       mkSimilar p 0 ∈ survivors [1] 0 (findProducts wStore none)) ∧
    (∀ res, rankProducts [1] wStore 10 0 none = .ok res →
       ∀ r ∈ res, ∃ p ∈ findProducts wStore none,
         p.embedding ≠ [] ∧ 0 ≤ dotQ [1] p.embedding ∧
         r = mkSimilar p (dotQ [1] p.embedding))) :=
  ⟨by decide, C1_threshold_inclusion [1] wStore 10 0 none (by decide)⟩

/-- C2: the returned sequence is the truncation of the stably descending
sort of the survivors: every successful response is pairwise sorted by
non-increasing similarity score, and for each score value the entries
carrying that score stay in their survivor (candidate) order. -/
theorem C2_sorted_and_stable (query_embedding : List ℚ) (store : List Product)
    (limit : ℤ) (min_similarity : ℚ) (category : Option String)
    (wf : ∀ p ∈ findProducts store category, WFFor query_embedding p) :
    rankProducts query_embedding store limit min_similarity category =
      .ok (pySlice limit (sortByScoreDesc
        (survivors query_embedding min_similarity (findProducts store category)))) ∧
    (∀ res, rankProducts query_embedding store limit min_similarity category = .ok res →
       res.Pairwise (fun a b => b.similarity_score ≤ a.similarity_score)) ∧
    (∀ c : ℚ,
       (sortByScoreDesc (survivors query_embedding min_similarity
           (findProducts store category))).filter (fun r => r.similarity_score = c) =
         (survivors query_embedding min_similarity
           (findProducts store category)).filter (fun r => r.similarity_score = c)) := by
  have hok := rankProducts_eq query_embedding store limit min_similarity category wf
  refine ⟨hok, ?_, fun c => sortByScoreDesc_filter_eq _ c⟩
  intro res hres
  rw [hok] at hres
  obtain rfl : pySlice limit (sortByScoreDesc
      (survivors query_embedding min_similarity (findProducts store category))) = res :=
    by exact Except.ok.inj hres
  exact (sortByScoreDesc_pairwise _).sublist (pySlice_sublist _ _)

/-- Witness for C2 at a concrete query, store, threshold and limit. -/
theorem C2_witness :
    (∀ p ∈ findProducts wStore none, WFFor [1] p) ∧
    (rankProducts [1] wStore 10 0 none =
      .ok (pySlice 10 (sortByScoreDesc (survivors [1] 0 (findProducts wStore none)))) ∧
    (∀ res, rankProducts [1] wStore 10 0 none = .ok res →
       res.Pairwise (fun a b => b.similarity_score ≤ a.similarity_score)) ∧
    (∀ c : ℚ,
       (sortByScoreDesc (survivors [1] 0 (findProducts wStore none))).filter
           (fun r => r.similarity_score = c) =
         (survivors [1] 0 (findProducts wStore none)).filter
           (fun r => r.similarity_score = c))) :=
  ⟨by decide, C2_sorted_and_stable [1] wStore 10 0 none (by decide)⟩

/-- C5: a limit of 0 returns the empty sequence; a non-negative limit
returns the first k sorted survivors; when at most k survive, all of
them are returned. -/
theorem C5_limit_semantics (query_embedding : List ℚ) (store : List Product)
    (min_similarity : ℚ) (category : Option String)
    (wf : ∀ p ∈ findProducts store category, WFFor query_embedding p) :
    rankProducts query_embedding store 0 min_similarity category = .ok [] ∧
    (∀ k : ℤ, 0 ≤ k →
       rankProducts query_embedding store k min_similarity category =
         .ok ((sortByScoreDesc (survivors query_embedding min_similarity
           (findProducts store category))).take k.toNat)) ∧
    (∀ k : ℤ, 0 ≤ k →
       (sortByScoreDesc (survivors query_embedding min_similarity
         (findProducts store category))).length ≤ k.toNat →
       rankProducts query_embedding store k min_similarity category =
         .ok (sortByScoreDesc (survivors query_embedding min_similarity
           (findProducts store category)))) := by
  refine ⟨?_, ?_, ?_⟩
  · rw [rankProducts_eq query_embedding store 0 min_similarity category wf]
    simp [pySlice]
  · intro k hk
    rw [rankProducts_eq query_embedding store k min_similarity category wf,
      pySlice_nonneg k hk]
  · intro k hk hlen
    rw [rankProducts_eq query_embedding store k min_similarity category wf,
      pySlice_nonneg k hk, List.take_of_length_le hlen]

/-- Witness for C5 at a concrete query, store and threshold. -/
theorem C5_witness :
    (∀ p ∈ findProducts wStore none, WFFor [1] p) ∧
    (rankProducts [1] wStore 0 0 none = .ok [] ∧
    (∀ k : ℤ, 0 ≤ k →
       rankProducts [1] wStore k 0 none =
         .ok ((sortByScoreDesc (survivors [1] 0 (findProducts wStore none))).take k.toNat)) ∧
    (∀ k : ℤ, 0 ≤ k →
       (sortByScoreDesc (survivors [1] 0 (findProducts wStore none))).length ≤ k.toNat →
       rankProducts [1] wStore k 0 none =
         .ok (sortByScoreDesc (survivors [1] 0 (findProducts wStore none))))) :=
  ⟨by decide, C5_limit_semantics [1] wStore 0 none (by decide)⟩

/-- The candidate set as the spec describes it (§4.2 `scan`): all records
whose category equals the (truthy) filter value, or all records otherwise.
This is the spec-side definition used to compare against the code's
`findProducts`, which additionally caps the scan at 1000 documents. -/
def specCandidates (store : List Product) (category : Option String) : List Product :=
  match filter_query category with
  | none => store
  | some c => store.filter (fun p => p.category = c)

/-- The code's candidate set is the 1000-capped prefix of the spec's. -/
theorem findProducts_eq_take (store : List Product) (category : Option String) :
    findProducts store category = (specCandidates store category).take 1000 := by
  cases category with
  | none => rfl
  | some c =>
    by_cases hc : c = "" <;> simp [findProducts, specCandidates, filter_query, hc]

/-- A matching record used beyond the 1000-document cap. -/
def cexProductA : Product := ⟨"idA", "A", "Electronics", "uA", none, none, [1], 0⟩

/-- The 1001st matching record, dropped by the cap. -/
def cexProductB : Product := ⟨"idB", "B", "Electronics", "uB", none, none, [1], 0⟩

/-- A store of 1001 records, all in the "Electronics" category. -/
def cexBigStore : List Product := List.replicate 1000 cexProductA ++ [cexProductB]

/-- C3 counterexample: `find(...).to_list(1000)` caps the candidate set at
1000 documents, so in a store of 1001 matching records the last stored
record is omitted from the ranking step, both with no category filter and
with the matching "Electronics" filter. -/
theorem C3_counterexample :
    cexProductB ∈ cexBigStore ∧
    cexProductB.category = "Electronics" ∧
    cexProductB ∉ findProducts cexBigStore none ∧
    cexProductB ∉ findProducts cexBigStore (some "Electronics") := by
  have hAcat : ∀ p ∈ cexBigStore, p.category = "Electronics" := by
    intro p hp
    rcases List.mem_append.mp hp with h | h
    · rw [(List.mem_replicate.mp h).2]; rfl
    · rw [List.mem_singleton.mp h]; rfl
  have htake : cexBigStore.take 1000 = List.replicate 1000 cexProductA := by
    have hlen : (List.replicate 1000 cexProductA).length = 1000 :=
      List.length_replicate 1000 cexProductA
    calc cexBigStore.take 1000
        = (List.replicate 1000 cexProductA ++ [cexProductB]).take
            (List.replicate 1000 cexProductA).length := by rw [hlen]; rfl
      _ = List.replicate 1000 cexProductA := List.take_left _ _
  have hBA : cexProductB ∉ List.replicate 1000 cexProductA := by
    intro h
    have h2 := (List.mem_replicate.mp h).2
    exact absurd (congrArg Product.id h2) (by decide)
  have hBin : cexProductB ∈ cexBigStore :=
    List.mem_append_right _ (List.mem_singleton.mpr rfl)
  refine ⟨hBin, rfl, ?_, ?_⟩
  · rw [findProducts_eq_take]
    show cexProductB ∉ cexBigStore.take 1000
    rw [htake]
    exact hBA
  · rw [findProducts_eq_take]
    have hfil : cexBigStore.filter (fun p => p.category = "Electronics") = cexBigStore :=
      List.filter_eq_self.mpr (fun p hp => by simp [hAcat p hp])
    show cexProductB ∉ (cexBigStore.filter (fun p => p.category = "Electronics")).take 1000
    rw [hfil, htake]
    exact hBA

/-- C3 amended: the candidate set handed to ranking is the first 1000
records matching the category filter (all records when no truthy category
is given); it equals the full matching set whenever at most 1000 records
match. -/
theorem C3_amended_capped (store : List Product) (category : Option String)
    (h : (specCandidates store category).length ≤ 1000) :
    findProducts store category = (specCandidates store category).take 1000 ∧
    findProducts store category = specCandidates store category := by
  refine ⟨findProducts_eq_take store category, ?_⟩
  rw [findProducts_eq_take store category]
  exact List.take_of_length_le h

/-- Witness for the amended C3 on a small concrete store. -/
theorem C3_amended_witness :
    (specCandidates wStore none).length ≤ 1000 ∧
    (findProducts wStore none = (specCandidates wStore none).take 1000 ∧
     findProducts wStore none = specCandidates wStore none) :=
  ⟨by decide, C3_amended_capped wStore none (by decide)⟩

/-- Decidable equality for `Except` results, used to evaluate the model
at concrete inputs. -/
instance (ε α : Type) [DecidableEq ε] [DecidableEq α] : DecidableEq (Except ε α) :=
  fun x y =>
    match x, y with
    | .error a, .error b =>
      if h : a = b then isTrue (by rw [h]) else isFalse (by simp [h])
    | .ok a, .ok b =>
      if h : a = b then isTrue (by rw [h]) else isFalse (by simp [h])
    | .error _, .ok _ => isFalse (by simp)
    | .ok _, .error _ => isFalse (by simp)

/-- A well-formed candidate with a one-dimensional fingerprint. -/
def cexGoodProd : Product := ⟨"g", "Good", "Electronics", "ug", none, none, [1], 0⟩

/-- A malformed candidate whose fingerprint dimension (2) differs from the
query dimension (1). -/
def cexBadProd : Product := ⟨"b", "Bad", "Electronics", "ub", none, none, [1, 0], 0⟩

/-- C4 (code bug): a single candidate with a mismatched fingerprint
dimension makes `np.dot` raise, which the endpoint's `except` block turns
into a request-level 500 error — the whole query fails instead of skipping
the malformed candidate, and the well-formed candidate's results are lost. -/
theorem C4_dimension_mismatch_aborts :
    (∀ (limit : ℤ) (t : ℚ),
       rankProducts [1] [cexGoodProd, cexBadProd] limit t none = .error ()) ∧
    search_by_url Unit (some (fun _ => [1])) (fun _ => some ()) "u" none none none
      [cexGoodProd, cexBadProd] = (.error .internalError, [.fetchUrl "u"]) := by
  have hscore : ∀ t : ℚ, scoreProducts [1] t [cexGoodProd, cexBadProd] = .error () := by
    intro t
    by_cases h : t ≤ dotQ [1] [1]
    · simp [scoreProducts, calculate_cosine_similarity, cexGoodProd, cexBadProd, h]
    · simp [scoreProducts, calculate_cosine_similarity, cexGoodProd, cexBadProd, h]
  have hrank : ∀ (limit : ℤ) (t : ℚ),
      rankProducts [1] [cexGoodProd, cexBadProd] limit t none = .error () := by
    intro limit t
    unfold rankProducts
    rw [show findProducts [cexGoodProd, cexBadProd] none = [cexGoodProd, cexBadProd]
      from rfl]
    rw [hscore t]
  refine ⟨hrank, ?_⟩
  simp [search_by_url, hrank]

/-- The seeding loop processes every spec: inserted plus failed grows by
exactly the number of specs, whatever the per-item outcomes are. -/
theorem seedLoop_counts (Img : Type) (emb : Img → List ℚ) (load : String → Option Img)
    (fid : ℕ → String) (now : ℕ) (specs : List SampleSpec) :
    ∀ (store : List Product) (idx inserted failed : ℕ) (effs : List Eff),
      (seedLoop Img emb load fid now specs store idx inserted failed effs).2.1 +
        (seedLoop Img emb load fid now specs store idx inserted failed effs).2.2.1 =
        inserted + failed + specs.length := by
  induction specs with
  | nil => intro store idx inserted failed effs; simp [seedLoop]
  | cons s rest ih =>
    intro store idx inserted failed effs
    unfold seedLoop
    cases hl : load s.image_url with
    | none =>
      rw [ih]
      simp
      omega
    | some img =>
      rw [ih]
      simp
      omega

/-- Starting store length plus insertions equals the final store length. -/
theorem seedLoop_length (Img : Type) (emb : Img → List ℚ) (load : String → Option Img)
    (fid : ℕ → String) (now : ℕ) (specs : List SampleSpec) :
    ∀ (store : List Product) (idx inserted failed : ℕ) (effs : List Eff),
      (seedLoop Img emb load fid now specs store idx inserted failed effs).1.length +
        inserted =
      store.length +
        (seedLoop Img emb load fid now specs store idx inserted failed effs).2.1 := by
  induction specs with
  | nil => intro store idx inserted failed effs; simp [seedLoop]
  | cons s rest ih =>
    intro store idx inserted failed effs
    unfold seedLoop
    cases hl : load s.image_url with
    | none =>
      dsimp only
      rw [ih]
    | some img =>
      dsimp only
      have h2 := ih (store ++ [⟨fid idx, s.name, s.category, s.image_url, some s.price,
        none, emb img, now⟩]) (idx + 1) (inserted + 1) failed
        (effs ++ [Eff.fetchUrl s.image_url, Eff.dbWrite])
      simp only [List.length_append, List.length_singleton] at h2
      omega

/-- C6: seeding a non-empty store is a no-op (the idempotency guard), and
in particular a second call right after a first record-inserting call
leaves the store, and its record count, unchanged. -/
theorem C6_seed_idempotent (Img : Type) (emb emb2 : Img → List ℚ)
    (load load2 : String → Option Img) (fid fid2 : ℕ → String) (now now2 : ℕ)
    (store : List Product) (h : store ≠ []) :
    seed_products Img (some emb) load fid now store =
      ((.ok (.alreadySeeded store.length), store), []) ∧
    (∀ (inserted failed : ℕ) (store1 : List Product) (effs : List Eff),
       seed_products Img (some emb2) load2 fid2 now2 [] =
         ((.ok (.seeded inserted failed), store1), effs) →
       0 < inserted →
       seed_products Img (some emb) load fid now store1 =
         ((.ok (.alreadySeeded store1.length), store1), [])) := by
  have hnoop : ∀ st : List Product, st ≠ [] →
      seed_products Img (some emb) load fid now st =
        ((.ok (.alreadySeeded st.length), st), []) := by
    intro st hst
    have hpos : st.length > 0 := List.length_pos.mpr hst
    simp [seed_products, hpos]
  refine ⟨hnoop store h, ?_⟩
  intro inserted failed store1 effs hseed hins
  have hrun : seed_products Img (some emb2) load2 fid2 now2 [] =
      ((.ok (.seeded
          (seedLoop Img emb2 load2 fid2 now2 sample_products [] 0 0 0 []).2.1
          (seedLoop Img emb2 load2 fid2 now2 sample_products [] 0 0 0 []).2.2.1),
        (seedLoop Img emb2 load2 fid2 now2 sample_products [] 0 0 0 []).1),
       (seedLoop Img emb2 load2 fid2 now2 sample_products [] 0 0 0 []).2.2.2) := rfl
  rw [hrun] at hseed
  have hstore1 : (seedLoop Img emb2 load2 fid2 now2 sample_products [] 0 0 0 []).1 =
      store1 := congrArg (fun x => x.1.2) hseed
  have hinserted : (seedLoop Img emb2 load2 fid2 now2 sample_products [] 0 0 0 []).2.1 =
      inserted := by
    have hfst := congrArg (fun x => x.1.1) hseed
    simp only at hfst
    cases hfst
    rfl
  have hlen1 : store1.length = inserted := by
    have hl := seedLoop_length Img emb2 load2 fid2 now2 sample_products [] 0 0 0 []
    rw [hstore1, hinserted] at hl
    simpa using hl
  have hne : store1 ≠ [] := by
    intro hnil
    rw [hnil] at hlen1
    simp at hlen1
    omega
  exact hnoop store1 hne

/-- Witness for C6 with a concrete one-record store. -/
theorem C6_witness :
    ([⟨"id1", "P1", "Electronics", "u1", none, none, [1], 0⟩] : List Product) ≠ [] ∧
    (seed_products Unit (some (fun _ => [1])) (fun _ => some ()) (fun _ => "x") 0
        [⟨"id1", "P1", "Electronics", "u1", none, none, [1], 0⟩] =
      ((.ok (.alreadySeeded
          ([⟨"id1", "P1", "Electronics", "u1", none, none, [1], 0⟩] :
            List Product).length),
        [⟨"id1", "P1", "Electronics", "u1", none, none, [1], 0⟩]), []) ∧
    (∀ (inserted failed : ℕ) (store1 : List Product) (effs : List Eff),
       seed_products Unit (some (fun _ => [1])) (fun _ => some ()) (fun _ => "x") 0 [] =
         ((.ok (.seeded inserted failed), store1), effs) →
       0 < inserted →
       seed_products Unit (some (fun _ => [1])) (fun _ => some ()) (fun _ => "x") 0 store1 =
         ((.ok (.alreadySeeded store1.length), store1), []))) :=
  ⟨by decide, C6_seed_idempotent Unit (fun _ => [1]) (fun _ => [1]) (fun _ => some ())
    (fun _ => some ()) (fun _ => "x") (fun _ => "x") 0 0
    [⟨"id1", "P1", "Electronics", "u1", none, none, [1], 0⟩] (by decide)⟩

/-- C7: seeding an initially empty store hands every sample spec to the
loop — a per-item failure only increments the failed count and the loop
continues — so the final inserted and failed counts always sum to the
number of sample specs. -/
theorem C7_seed_counts (Img : Type) (emb : Img → List ℚ)
    (load : String → Option Img) (fid : ℕ → String) (now : ℕ) :
    seed_products Img (some emb) load fid now [] =
      ((.ok (.seeded
          (seedLoop Img emb load fid now sample_products [] 0 0 0 []).2.1
          (seedLoop Img emb load fid now sample_products [] 0 0 0 []).2.2.1),
        (seedLoop Img emb load fid now sample_products [] 0 0 0 []).1),
       (seedLoop Img emb load fid now sample_products [] 0 0 0 []).2.2.2) ∧
    (seedLoop Img emb load fid now sample_products [] 0 0 0 []).2.1 +
      (seedLoop Img emb load fid now sample_products [] 0 0 0 []).2.2.1 =
      sample_products.length := by
  refine ⟨rfl, ?_⟩
  simpa using seedLoop_counts Img emb load fid now sample_products [] 0 0 0 []

/-- C8: both search entry points parse their optional parameters with the
same defaults, limit 10 and minimum similarity 0.3: leaving them
unspecified is the same as passing those values explicitly. -/
theorem C8_default_parameters (Img : Type) (embedder : Option (Img → List ℚ))
    (loadB : List ℕ → Option Img) (loadU : String → Option Img)
    (file : List ℕ) (url : String) (category : Option String) (store : List Product) :
    search_by_upload Img embedder loadB file none none category store =
      search_by_upload Img embedder loadB file (some 10) (some (3/10)) category store ∧
    search_by_url Img embedder loadU url none none category store =
      search_by_url Img embedder loadU url (some 10) (some (3/10)) category store :=
  ⟨rfl, rfl⟩

/-- C9: with the embedder unavailable (failed startup initialization),
every encoding operation returns the 503 error immediately: no image
fetch or upload read is performed (empty effect trace) and the store is
returned unchanged. -/
theorem C9_encoder_unavailable (Img : Type)
    (loadB : List ℕ → Option Img) (loadU : String → Option Img)
    (file : List ℕ) (url : String) (limit : Option ℤ) (minSim : Option ℚ)
    (category : Option String) (store : List Product) (spec : ProductCreate)
    (fid : String) (fidn : ℕ → String) (now : ℕ) :
    create_product Img none loadU fid now store spec =
      ((.error .encodingUnavailable, store), []) ∧
    search_by_upload Img none loadB file limit minSim category store =
      (.error .encodingUnavailable, []) ∧
    search_by_url Img none loadU url limit minSim category store =
      (.error .encodingUnavailable, []) ∧
    seed_products Img none loadU fidn now store =
      ((.error .encodingUnavailable, store), []) :=
  ⟨rfl, rfl, rfl, rfl⟩

/-- C10: the empty string is falsy in Python, so an empty-string category
filter builds the same unfiltered query as no category at all — the
candidate set and the whole ranking result coincide. -/
theorem C10_empty_category (query_embedding : List ℚ) (store : List Product)
    (limit : ℤ) (min_similarity : ℚ) :
    findProducts store (some "") = findProducts store none ∧
    rankProducts query_embedding store limit min_similarity (some "") =
      rankProducts query_embedding store limit min_similarity none :=
  ⟨rfl, rfl⟩

end VPM
